import Mathlib

/-!
Shallow embedding of the SNMP agent PDU-processing engine
(`src/cyclone_tcp/snmp/snmp_agent_pdu.c`, CycloneTCP 1.9.7b) together with
proofs about its dispatch, variable-binding walking, two-phase set, bulk
repetition and security-failure reporting logic.

External collaborators (the ASN.1/OID primitives, the MIB store, and the
helper routines of `snmp_agent_misc.c` / `snmp_agent_object.c`, which are
not part of the analysed source) are modelled from the specification at
their interface boundary; their doc comments start with
`Modelled from the spec:`.  Everything else is translated directly from
`snmp_agent_pdu.c`; source line numbers are cited in the comments.
-/

set_option maxHeartbeats 1000000

namespace SnmpAgent

/-- SNMP protocol versions (v1 / v2c / v3). -/
inductive SnmpVersion where
  | v1 | v2c | v3
  deriving DecidableEq

/-- PDU types routed by `snmpProcessPdu` (lines 77-106). -/
inductive SnmpPduType where
  | getRequest | getNextRequest | getBulkRequest | setRequest
  | getResponse | report | trap
  deriving DecidableEq

/-- Access mode presented by the caller (`context->user.mode`). -/
inductive SnmpAccess where
  | noAccess | readOnly | writeOnly | readWrite
  deriving DecidableEq

/-- Error codes (`error_t`) observable in the PDU-processing engine.  The
`other` constructor stands for any further failure code a collaborator may
return ("anything else aborts the whole PDU"). -/
inductive ErrorT where
  | accessDenied | objectNotFound | instanceNotFound | invalidOid
  | bufferOverflow | invalidType | wrongEncoding
  | unsupportedSecurityLevel | notInTimeWindow | unknownUserName
  | unknownEngineId | authenticationFailed | decryptionFailed
  | unavailableContext | unknownContext
  | other (code : Nat)
  deriving DecidableEq

/-- ASN.1 application class tag (`asn1.h`, excluded header; standard value). -/
def ASN1_CLASS_APPLICATION : Nat := 64

/-- ASN.1 context-specific class tag (`asn1.h`, excluded header). -/
def ASN1_CLASS_CONTEXT_SPECIFIC : Nat := 128

/-- noSuchObject exception tag value (`snmp_common.h`, excluded header). -/
def SNMP_EXCEPTION_NO_SUCH_OBJECT : Nat := 0

/-- noSuchInstance exception tag value (`snmp_common.h`, excluded header). -/
def SNMP_EXCEPTION_NO_SUCH_INSTANCE : Nat := 1

/-- endOfMibView exception tag value (`snmp_common.h`, excluded header). -/
def SNMP_EXCEPTION_END_OF_MIB_VIEW : Nat := 2

/-- Counter32 application type (`mib_common.h`, excluded header). -/
def MIB_TYPE_COUNTER32 : Nat := 65

/-- Error-status value noError(0). -/
def SNMP_ERROR_NONE : Nat := 0

/-- Error-status value tooBig(1). -/
def SNMP_ERROR_TOO_BIG : Nat := 1

/-- Error-status value noSuchName(2), SNMPv1 legacy vocabulary. -/
def SNMP_ERROR_NO_SUCH_NAME : Nat := 2

/-- Error-status value genErr(5). -/
def SNMP_ERROR_GEN_ERR : Nat := 5

/-- Error-status value noAccess(6), extended (v2c/v3) vocabulary. -/
def SNMP_ERROR_NO_ACCESS : Nat := 6

/-- Error-status value notWritable(17), extended (v2c/v3) vocabulary. -/
def SNMP_ERROR_NOT_WRITABLE : Nat := 17

/-- Message flag bit authFlag (`snmp_common.h`, excluded header). -/
def SNMP_MSG_FLAG_AUTH : Nat := 1

/-- Message flag bit privFlag (`snmp_common.h`, excluded header). -/
def SNMP_MSG_FLAG_PRIV : Nat := 2

/-- Message flag bit reportableFlag (`snmp_common.h`, excluded header). -/
def SNMP_MSG_FLAG_REPORTABLE : Nat := 4

/-- User-based security model identifier (3). -/
def SNMP_SECURITY_MODEL_USM : Nat := 3

/-- Maximum message size advertised in Report-PDUs (`snmp_common.h`). -/
def SNMP_MAX_MSG_SIZE : Nat := 1452

/-- One variable binding: object identifier (encoded sub-identifier bytes),
ASN.1 class/type of the value, and the value payload (lines 146, 248-250:
exception values are represented by a context-specific class, an exception
tag as type, and an empty payload). -/
structure SnmpVarBind where
  oid : List Nat := []
  objClass : Nat := 0
  objType : Nat := 0
  value : List Nat := []
  deriving DecidableEq

/-- One SNMP message (request or response) as manipulated by
`snmp_agent_pdu.c`: header fields, error fields, GetBulk bookkeeping
fields, SNMPv3 security header fields, and the decoded variable-binding
list.  Opaque byte-string fields (user name, engine id, parameters) are
represented by `Nat` identifiers; `pduHeaderWritten` records that
`snmpWritePduHeader` ran on the message. -/
structure SnmpMessage where
  version : SnmpVersion := .v1
  pduType : SnmpPduType := .getRequest
  requestId : Nat := 0
  errorStatus : Nat := 0
  errorIndex : Nat := 0
  nonRepeaters : Nat := 0
  maxRepetitions : Nat := 0
  varBindList : List SnmpVarBind := []
  msgId : Nat := 0
  msgMaxSize : Nat := 0
  msgFlags : Nat := 0
  msgSecurityModel : Nat := 0
  msgAuthEngineId : Nat := 0
  msgAuthEngineIdLen : Nat := 0
  msgAuthEngineBoots : Nat := 0
  msgAuthEngineTime : Nat := 0
  msgUserName : Nat := 0
  msgUserNameLen : Nat := 0
  msgAuthParameters : Option Nat := Option.none
  msgAuthParametersLen : Nat := 0
  msgPrivParameters : Nat := 0
  msgPrivParametersLen : Nat := 0
  contextEngineId : Nat := 0
  contextEngineIdLen : Nat := 0
  contextName : Nat := 0
  contextNameLen : Nat := 0
  pduHeaderWritten : Bool := false
  deriving DecidableEq

/-- The SNMP agent context (`SnmpAgentContext`): request and response
messages, the caller's access mode (`context->user.mode`), the MIB store
state (type parameter `σ`, owned externally), and the message-layer
identifiers used by Report-PDU construction (lines 727-767). -/
structure SnmpAgentContext (σ : Type) where
  request : SnmpMessage
  response : SnmpMessage := {}
  userMode : SnmpAccess := .noAccess
  store : σ
  contextEngine : Nat := 0
  contextEngineLen : Nat := 0
  engineBoots : Nat := 0
  engineTime : Nat := 0
  contextName : Nat := 0
  contextNameLen : Nat := 0
  privParameters : Nat := 0
  deriving DecidableEq

/-- Modelled from the spec: the external collaborators consumed by the
PDU-processing engine (spec §6).  `oidCheck` is the OID syntax validator
(`encoding/oid.c`, excluded primitive); `getObjectValue`, `getNextObject`,
`checkSet`, `commitSet` are the MIB store contract (`snmp_agent_object.c`;
`checkSet`/`commitSet` are `snmpSetObjectValue` with commit flag FALSE
resp. TRUE — the check never mutates the store, the commit returns the
mutated store); `parsePduHeader` is the header parser of
`snmp_agent_misc.c`; `capacity` abstracts the response buffer size as a
maximum number of variable bindings. -/
structure SnmpEnv (σ : Type) where
  oidCheck : List Nat → Bool
  getObjectValue : σ → List Nat → Except ErrorT (Nat × Nat × List Nat)
  getNextObject : σ → List Nat → Except ErrorT (List Nat)
  checkSet : σ → SnmpVarBind → Except ErrorT Unit
  commitSet : σ → SnmpVarBind → Except ErrorT σ
  parsePduHeader : SnmpMessage → Except ErrorT Unit
  capacity : Nat

variable {σ : Type}

/-- Modelled from the spec: `snmpInitResponse` (`snmp_agent_misc.c`, not
part of the analysed source).  Initializes the response envelope from the
request: same version and request-id, GetResponse PDU type, noError
status, zero error-index, empty variable-binding list. -/
def snmpInitResponse (req : SnmpMessage) : SnmpMessage :=
  { version := req.version
    pduType := .getResponse
    requestId := req.requestId
    errorStatus := SNMP_ERROR_NONE
    errorIndex := 0
    varBindList := [] }

/-- Modelled from the spec: `snmpTranslateStatusCode` (Status Translator,
`snmp_agent_misc.c`, not part of the analysed source; spec §4.6/§7).
Deterministic version-aware mapping from an internal failure code and a
1-based variable index to the `(error-status, error-index)` pair; the
error-index is the supplied index; v1 uses the legacy status vocabulary,
v2c/v3 the extended one; an unrecognized failure code makes the
translation itself fail (fatal). -/
def snmpTranslateStatusCode (ver : SnmpVersion) (e : ErrorT) (index : Nat) :
    Except ErrorT (Nat × Nat) :=
  match e with
  | .bufferOverflow => .ok (SNMP_ERROR_TOO_BIG, index)
  | .accessDenied =>
      .ok ((if ver = .v1 then SNMP_ERROR_NO_SUCH_NAME else SNMP_ERROR_NO_ACCESS), index)
  | .objectNotFound =>
      .ok ((if ver = .v1 then SNMP_ERROR_NO_SUCH_NAME else SNMP_ERROR_NOT_WRITABLE), index)
  | .instanceNotFound =>
      .ok ((if ver = .v1 then SNMP_ERROR_NO_SUCH_NAME else SNMP_ERROR_NOT_WRITABLE), index)
  | .invalidOid =>
      .ok ((if ver = .v1 then SNMP_ERROR_NO_SUCH_NAME else SNMP_ERROR_NO_ACCESS), index)
  | .wrongEncoding => .ok (SNMP_ERROR_GEN_ERR, index)
  | e' => .error e'

/-- Modelled from the spec: `snmpWriteVarBinding` (VarBind Codec Adapter,
`snmp_agent_misc.c`, not part of the analysed source; spec §2/§4.2).
Appends one variable binding to the response buffer; fails with
`bufferOverflow` when the binding does not fit.  `written` is the number
of bindings already in the buffer outside `acc`. -/
def snmpWriteVarBinding (env : SnmpEnv σ) (written : Nat)
    (acc : List SnmpVarBind) (v : SnmpVarBind) : Except ErrorT (List SnmpVarBind) :=
  if written + acc.length < env.capacity then .ok (acc ++ [v])
  else .error .bufferOverflow

/-- The endOfMibView substitution (lines 247-250 / 458-461): keep the
object identifier, set a context-specific class, the endOfMibView
exception tag, and an empty value. -/
def endOfMibViewBind (v : SnmpVarBind) : SnmpVarBind :=
  { v with objClass := ASN1_CLASS_CONTEXT_SPECIFIC
           objType := SNMP_EXCEPTION_END_OF_MIB_VIEW
           value := [] }

/-- The noSuchObject substitution (lines 279-282 / 479-482). -/
def noSuchObjectBind (v : SnmpVarBind) : SnmpVarBind :=
  { v with objClass := ASN1_CLASS_CONTEXT_SPECIFIC
           objType := SNMP_EXCEPTION_NO_SUCH_OBJECT
           value := [] }

/-- The noSuchInstance substitution (lines 286-289 / 486-489). -/
def noSuchInstanceBind (v : SnmpVarBind) : SnmpVarBind :=
  { v with objClass := ASN1_CLASS_CONTEXT_SPECIFIC
           objType := SNMP_EXCEPTION_NO_SUCH_INSTANCE
           value := [] }

/-- Classification of a value-retrieval failure (lines 263-297): under v1
any failure aborts; under v2c/v3, `accessDenied` and `objectNotFound`
become the noSuchObject exception, `instanceNotFound` becomes the
noSuchInstance exception, anything else aborts. -/
def snmpClassifyGetFailure (ver : SnmpVersion) (v : SnmpVarBind) (e : ErrorT) :
    Except ErrorT SnmpVarBind :=
  if ver = .v1 then .error e
  else if e = .accessDenied ∨ e = .objectNotFound then .ok (noSuchObjectBind v)
  else if e = .instanceNotFound then .ok (noSuchInstanceBind v)
  else .error e

/-- One fetch of the Get/GetNext handler (lines 209-297): for a
GetRequest-PDU the value of the exact object identifier is retrieved and a
failure is classified; for a GetNextRequest-PDU the lexicographically next
object is searched first — a `getNext` failure aborts under v1, becomes
endOfMibView under v2c/v3 when the failure is `objectNotFound`, and aborts
otherwise; on `getNext` success the object identifier is replaced and the
value retrieved, retrieval failures being classified. -/
def snmpGetStep (env : SnmpEnv σ) (store : σ) (ver : SnmpVersion)
    (pdu : SnmpPduType) (v : SnmpVarBind) : Except ErrorT SnmpVarBind :=
  if pdu = .getRequest then
    match env.getObjectValue store v.oid with
    | .ok (c, t, val) => .ok { v with objClass := c, objType := t, value := val }
    | .error e => snmpClassifyGetFailure ver v e
  else
    match env.getNextObject store v.oid with
    | .error e =>
        if ver = .v1 then .error e
        else if e = .objectNotFound then .ok (endOfMibViewBind v)
        else .error e
    | .ok nextOid =>
        match env.getObjectValue store nextOid with
        | .ok (c, t, val) =>
            .ok { oid := nextOid, objClass := c, objType := t, value := val }
        | .error e => snmpClassifyGetFailure ver { v with oid := nextOid } e

/-- The variable-binding loop of `snmpProcessGetRequestPdu`
(lines 195-315): for each request binding, validate the object identifier
syntax (abort with `invalidOid` on failure), fetch the value, append the
produced binding to the response (abort on append failure).  Returns the
abort error with its 1-based index (or `none`) together with the
accumulated response bindings. -/
def snmpGetLoop (env : SnmpEnv σ) (store : σ) (ver : SnmpVersion)
    (pdu : SnmpPduType) :
    List SnmpVarBind → Nat → List SnmpVarBind →
    Option (ErrorT × Nat) × List SnmpVarBind
  | [], _, resp => (Option.none, resp)
  | v :: rest, idx, resp =>
    if env.oidCheck v.oid = false then (Option.some (.invalidOid, idx), resp)
    else
      match snmpGetStep env store ver pdu v with
      | .error e => (Option.some (e, idx), resp)
      | .ok outVar =>
        match snmpWriteVarBinding env 0 resp outVar with
        | .error e => (Option.some (e, idx), resp)
        | .ok resp2 => snmpGetLoop env store ver pdu rest (idx + 1) resp2

/-- `snmpProcessGetRequestPdu` (lines 139-351): enforce the read access
policy (bare `accessDenied` otherwise), initialize the response, run the
variable-binding loop under the MIB gate; on abort translate the status
code (a translation failure discards the message), then either emit the
alternate empty-binding-list response (version not v1 and tooBig status)
or re-format the response to echo the request's bindings. -/
def snmpProcessGetRequestPdu (env : SnmpEnv σ) (ctx : SnmpAgentContext σ) :
    Except ErrorT (SnmpAgentContext σ) :=
  if ctx.userMode = .readOnly ∨ ctx.userMode = .readWrite then
    let resp0 := snmpInitResponse ctx.request
    match snmpGetLoop env ctx.store ctx.request.version ctx.request.pduType
        ctx.request.varBindList 1 [] with
    | (Option.none, bnds) =>
        .ok { ctx with response := { resp0 with varBindList := bnds } }
    | (Option.some (e, idx), _) =>
        match snmpTranslateStatusCode resp0.version e idx with
        | .error e2 => .error e2
        | .ok (st, ix) =>
            let resp1 := { resp0 with errorStatus := st, errorIndex := ix }
            if resp1.version ≠ .v1 ∧ st = SNMP_ERROR_TOO_BIG then
              .ok { ctx with response := { resp1 with varBindList := [] } }
            else
              .ok { ctx with response := { resp1 with varBindList := ctx.request.varBindList } }
  else .error .accessDenied

/-- Phase 1 of `snmpProcessSetRequestPdu` (lines 622-639): every request
binding is validated through the store's check operation
(`snmpSetObjectValue` with commit flag FALSE); the first failure aborts
the phase with its 1-based index.  No object identifier syntax check is
performed in this loop. -/
def snmpSetValidateLoop (env : SnmpEnv σ) (store : σ) :
    List SnmpVarBind → Nat → Option (ErrorT × Nat)
  | [], _ => Option.none
  | v :: rest, idx =>
    match env.checkSet store v with
    | .error e => Option.some (e, idx)
    | .ok _ => snmpSetValidateLoop env store rest (idx + 1)

/-- Phase 2 of `snmpProcessSetRequestPdu` (lines 649-672): every request
binding is committed through the store's commit operation
(`snmpSetObjectValue` with commit flag TRUE); the first failure aborts the
phase with its 1-based index, the commits already performed remaining in
the store. -/
def snmpSetCommitLoop (env : SnmpEnv σ) :
    σ → List SnmpVarBind → Nat → Option (ErrorT × Nat) × σ
  | s, [], _ => (Option.none, s)
  | s, v :: rest, idx =>
    match env.commitSet s v with
    | .error e => (Option.some (e, idx), s)
    | .ok s2 => snmpSetCommitLoop env s2 rest (idx + 1)

/-- `snmpProcessSetRequestPdu` (lines 578-692): enforce the write access
policy (bare `accessDenied` otherwise), initialize the response, run the
two phases under one MIB gate acquisition — phase 2 only if phase 1 fully
succeeded; on failure translate the status code (a translation failure
discards the message); on both success and failure the response is
re-formatted to echo the request's variable-binding list. -/
def snmpProcessSetRequestPdu (env : SnmpEnv σ) (ctx : SnmpAgentContext σ) :
    Except ErrorT (SnmpAgentContext σ) :=
  if ctx.userMode = .writeOnly ∨ ctx.userMode = .readWrite then
    let resp0 := snmpInitResponse ctx.request
    let phase1 := snmpSetValidateLoop env ctx.store ctx.request.varBindList 1
    let outcome :=
      match phase1 with
      | Option.some (e, idx) => (Option.some (e, idx), ctx.store)
      | Option.none => snmpSetCommitLoop env ctx.store ctx.request.varBindList 1
    match outcome with
    | (Option.none, s2) =>
        .ok { ctx with store := s2
                       response := { resp0 with varBindList := ctx.request.varBindList } }
    | (Option.some (e, idx), s2) =>
        match snmpTranslateStatusCode resp0.version e idx with
        | .error e2 => .error e2
        | .ok (st, ix) =>
            .ok { ctx with store := s2
                           response := { resp0 with errorStatus := st, errorIndex := ix,
                                                    varBindList := ctx.request.varBindList } }
  else .error .accessDenied

/-- One fetch of the GetBulk handler (lines 445-503): search the next
object — `objectNotFound` becomes the endOfMibView exception, any other
search failure aborts; on success replace the object identifier, retrieve
the value, and classify retrieval failures exactly as the v2c/v3 Get path
does.  The returned flag is true when the next object was found, i.e. when
the C code cleared the round's endOfMibView flag (line 452). -/
def snmpBulkStep (env : SnmpEnv σ) (store : σ) (v : SnmpVarBind) :
    Except ErrorT (SnmpVarBind × Bool) :=
  match env.getNextObject store v.oid with
  | .error e =>
      if e = .objectNotFound then .ok (endOfMibViewBind v, false)
      else .error e
  | .ok nextOid =>
      match env.getObjectValue store nextOid with
      | .ok (c, t, val) =>
          .ok ({ oid := nextOid, objClass := c, objType := t, value := val }, true)
      | .error e =>
          if e = .accessDenied ∨ e = .objectNotFound then
            .ok (noSuchObjectBind { v with oid := nextOid }, true)
          else if e = .instanceNotFound then
            .ok (noSuchInstanceBind { v with oid := nextOid }, true)
          else .error e

/-- One pass of the GetBulk variable-binding loop over a list of bindings
(lines 433-513): validate each object identifier (abort with
`invalidOid`), fetch via `snmpBulkStep`, append to the response buffer
(abort on append failure, `written` counting the bindings already in the
buffer before this pass).  Returns the abort error with its 1-based index
(or `none`), the bindings produced by this pass, and the pass's
endOfMibView flag (initially true, cleared whenever a next object is
found). -/
def snmpBulkRound (env : SnmpEnv σ) (store : σ) (written : Nat) :
    List SnmpVarBind → Nat → List SnmpVarBind → Bool →
    Option (ErrorT × Nat) × List SnmpVarBind × Bool
  | [], _, acc, eomv => (Option.none, acc, eomv)
  | v :: rest, idx, acc, eomv =>
    if env.oidCheck v.oid = false then (Option.some (.invalidOid, idx), acc, eomv)
    else
      match snmpBulkStep env store v with
      | .error e => (Option.some (e, idx), acc, eomv)
      | .ok (outVar, found) =>
        let eomv2 := if found then false else eomv
        match snmpWriteVarBinding env written acc outVar with
        | .error e => (Option.some (e, idx), acc, eomv2)
        | .ok acc2 => snmpBulkRound env store written rest (idx + 1) acc2 eomv2

/-- The repetition rounds of the GetBulk handler (lines 414-534): each
round re-walks the most recently produced bindings with GetNext semantics,
indices restarting at `nonRep + 1`; after a completed round the repeat
counter is decremented and the loop stops when it reaches zero or when
every binding of the round resolved to endOfMibView.  The C loop re-parses
the response bytes it has just written (lines 418, 529-531); since the
codec adapter's append/parse pair round-trips, the rounds here walk the
produced bindings directly.  Returns the abort error with its index (or
`none`), all bindings produced by the rounds, and the number of completed
rounds. -/
def snmpBulkRounds (env : SnmpEnv σ) (store : σ) (nonRep : Nat) :
    Nat → List SnmpVarBind → Nat →
    Option (ErrorT × Nat) × List SnmpVarBind × Nat
  | 0, _, _ => (Option.none, [], 0)
  | m + 1, current, written =>
    match snmpBulkRound env store written current (nonRep + 1) [] true with
    | (Option.some ei, produced, _) => (Option.some ei, produced, 0)
    | (Option.none, produced, eomv) =>
      if m = 0 then (Option.none, produced, 1)
      else if eomv then (Option.none, produced, 1)
      else
        match snmpBulkRounds env store nonRep m produced (written + produced.length) with
        | (r, more, c) => (r, produced ++ more, c + 1)

/-- The loop portion of `snmpProcessGetBulkRequestPdu` (lines 402-535):
the first `nonRepeaters` bindings are processed in a single pass; if
bindings remain, the repetition rounds run unless `maxRepetitions` is zero
(in which case the list is trimmed to the non-repeating bindings).
Returns the abort error with its index (or `none`), the accumulated
response bindings, and the number of completed repetition rounds. -/
def snmpBulkCore (env : SnmpEnv σ) (ctx : SnmpAgentContext σ) :
    Option (ErrorT × Nat) × List SnmpVarBind × Nat :=
  let nonRep := ctx.request.nonRepeaters
  let pre := ctx.request.varBindList.take nonRep
  let suf := ctx.request.varBindList.drop nonRep
  match snmpBulkRound env ctx.store 0 pre 1 [] true with
  | (Option.some ei, produced, _) => (Option.some ei, produced, 0)
  | (Option.none, preResp, _) =>
    if suf = [] then (Option.none, preResp, 0)
    else if ctx.request.maxRepetitions = 0 then (Option.none, preResp, 0)
    else
      match snmpBulkRounds env ctx.store nonRep ctx.request.maxRepetitions suf
          preResp.length with
      | (r, produced, c) => (r, preResp ++ produced, c)

/-- `snmpProcessGetBulkRequestPdu` (lines 360-569): reject version v1 with
`invalidType`, enforce the read access policy (bare `accessDenied`
otherwise), initialize the response, run the bulk loop — which decrements
the request's `maxRepetitions` field once per completed repetition round —
then: a `bufferOverflow` abort is not an error and the response keeps the
bindings that fit; any other abort is translated (a translation failure
discards the message) and the response is re-formatted to echo the
request's bindings. -/
def snmpProcessGetBulkRequestPdu (env : SnmpEnv σ) (ctx : SnmpAgentContext σ) :
    Except ErrorT (SnmpAgentContext σ) :=
  if ctx.request.version = .v1 then .error .invalidType
  else if ctx.userMode = .readOnly ∨ ctx.userMode = .readWrite then
    let resp0 := snmpInitResponse ctx.request
    match snmpBulkCore env ctx with
    | (r, resp, c) =>
      let req2 := { ctx.request with maxRepetitions := ctx.request.maxRepetitions - c }
      match r with
      | Option.none =>
          .ok { ctx with request := req2
                         response := { resp0 with varBindList := resp } }
      | Option.some (e, idx) =>
          if e = .bufferOverflow then
            .ok { ctx with request := req2
                           response := { resp0 with varBindList := resp } }
          else
            match snmpTranslateStatusCode resp0.version e idx with
            | .error e2 => .error e2
            | .ok (st, ix) =>
                .ok { ctx with request := req2
                               response := { resp0 with errorStatus := st, errorIndex := ix,
                                                        varBindList := ctx.request.varBindList } }
  else .error .accessDenied

/-- Modelled from the spec: `snmpWritePduHeader` (`snmp_agent_misc.c`, not
part of the analysed source).  Writes the response PDU header; recorded
here by the `pduHeaderWritten` flag. -/
def snmpWritePduHeader (m : SnmpMessage) : SnmpMessage :=
  { m with pduHeaderWritten := true }

/-- `snmpProcessPdu` (lines 63-130): parse the request PDU header (a
failure propagates), initialize the response message, route by PDU type to
the matching handler — an unrecognized type fails with `invalidType`
(GetResponse-PDU and Report-PDU inputs are compiled out here, the shown
source guarding them behind `SNMP_AGENT_INFORM_SUPPORT`) — and on handler
success, for the four request PDU types, write the response PDU header. -/
def snmpProcessPdu (env : SnmpEnv σ) (ctx : SnmpAgentContext σ) :
    Except ErrorT (SnmpAgentContext σ) :=
  match env.parsePduHeader ctx.request with
  | .error e => .error e
  | .ok _ =>
    let ctx0 := { ctx with response := {} }
    let r :=
      match ctx.request.pduType with
      | .getRequest => snmpProcessGetRequestPdu env ctx0
      | .getNextRequest => snmpProcessGetRequestPdu env ctx0
      | .getBulkRequest => snmpProcessGetBulkRequestPdu env ctx0
      | .setRequest => snmpProcessSetRequestPdu env ctx0
      | _ => .error .invalidType
    match r with
    | .error e => .error e
    | .ok ctx2 =>
      if ctx.request.pduType = .getRequest ∨ ctx.request.pduType = .getNextRequest ∨
         ctx.request.pduType = .getBulkRequest ∨ ctx.request.pduType = .setRequest then
        .ok { ctx2 with response := snmpWritePduHeader ctx2.response }
      else .ok ctx2

/-- snmpUnavailableContexts.0 object, 1.3.6.1.6.3.12.1.4.0 (lines 51-52). -/
def snmpUnavailableContextsObject : List Nat := [43, 6, 1, 6, 3, 12, 1, 4, 0]

/-- snmpUnknownContexts.0 object, 1.3.6.1.6.3.12.1.5.0 (lines 53-54). -/
def snmpUnknownContextsObject : List Nat := [43, 6, 1, 6, 3, 12, 1, 5, 0]

/-- Modelled from the spec: usmStatsUnsupportedSecLevels.0 object
(`snmp_usm_mib_module.h`, excluded header; RFC 3414 usmStats subtree). -/
def usmStatsUnsupportedSecLevelsObject : List Nat := [43, 6, 1, 6, 3, 15, 1, 1, 1, 0]

/-- Modelled from the spec: usmStatsNotInTimeWindows.0 object. -/
def usmStatsNotInTimeWindowsObject : List Nat := [43, 6, 1, 6, 3, 15, 1, 1, 2, 0]

/-- Modelled from the spec: usmStatsUnknownUserNames.0 object. -/
def usmStatsUnknownUserNamesObject : List Nat := [43, 6, 1, 6, 3, 15, 1, 1, 3, 0]

/-- Modelled from the spec: usmStatsUnknownEngineIDs.0 object. -/
def usmStatsUnknownEngineIdsObject : List Nat := [43, 6, 1, 6, 3, 15, 1, 1, 4, 0]

/-- Modelled from the spec: usmStatsWrongDigests.0 object. -/
def usmStatsWrongDigestsObject : List Nat := [43, 6, 1, 6, 3, 15, 1, 1, 5, 0]

/-- Modelled from the spec: usmStatsDecryptionErrors.0 object. -/
def usmStatsDecryptionErrorsObject : List Nat := [43, 6, 1, 6, 3, 15, 1, 1, 6, 0]

/-- The standard counters consulted by the Report handler.  The six
usmStats counters are the ones the analysed source increments and reads
back; the two snmp context counters are listed in the documented
FailureCause table but the source only emits the constant 1 for them
(lines 850-868). -/
structure UsmCounters where
  usmStatsUnsupportedSecLevels : Nat := 0
  usmStatsNotInTimeWindows : Nat := 0
  usmStatsUnknownUserNames : Nat := 0
  usmStatsUnknownEngineIds : Nat := 0
  usmStatsWrongDigests : Nat := 0
  usmStatsDecryptionErrors : Nat := 0
  snmpUnavailableContexts : Nat := 0
  snmpUnknownContexts : Nat := 0
  deriving DecidableEq

/-- Modelled from the spec: `snmpEncodeUnsignedInt32` (ASN.1 primitive of
`encoding/asn1.c`, excluded): minimal big-endian byte encoding of an
unsigned 32-bit counter value. -/
def snmpEncodeBytes : Nat → Nat → List Nat
  | 0, _ => []
  | _ + 1, 0 => []
  | fuel + 1, n => snmpEncodeBytes fuel (n / 256) ++ [n % 256]

/-- Modelled from the spec: entry point of the counter-value encoder. -/
def snmpEncodeUnsignedInt32 (n : Nat) : List Nat :=
  if n = 0 then [0] else snmpEncodeBytes 5 n

/-- The masking of the message flags with authFlag and privFlag applied by
the not-in-time-window path (lines 754-755): `msgFlags & (AUTH | PRIV)`,
i.e. the flags modulo 4. -/
def snmpMaskAuthPriv (flags : Nat) : Nat := flags % 4

/-- The counter-selection switch of `snmpFormatReportPdu` (lines 776-875):
for the six usmStats causes the counter is incremented and its new value
read back; for `unavailableContext` and `unknownContext` the counters are
left untouched and the value is the constant 1; an unrecognized cause
keeps the constant 1 with a null object identifier.  Returns the updated
counters, the value to encode, and the selected object identifier. -/
def snmpReportCounterSelect (c : UsmCounters) (e : ErrorT) :
    UsmCounters × Nat × List Nat :=
  match e with
  | .unsupportedSecurityLevel =>
      let c2 := { c with usmStatsUnsupportedSecLevels := c.usmStatsUnsupportedSecLevels + 1 }
      (c2, c2.usmStatsUnsupportedSecLevels, usmStatsUnsupportedSecLevelsObject)
  | .notInTimeWindow =>
      let c2 := { c with usmStatsNotInTimeWindows := c.usmStatsNotInTimeWindows + 1 }
      (c2, c2.usmStatsNotInTimeWindows, usmStatsNotInTimeWindowsObject)
  | .unknownUserName =>
      let c2 := { c with usmStatsUnknownUserNames := c.usmStatsUnknownUserNames + 1 }
      (c2, c2.usmStatsUnknownUserNames, usmStatsUnknownUserNamesObject)
  | .unknownEngineId =>
      let c2 := { c with usmStatsUnknownEngineIds := c.usmStatsUnknownEngineIds + 1 }
      (c2, c2.usmStatsUnknownEngineIds, usmStatsUnknownEngineIdsObject)
  | .authenticationFailed =>
      let c2 := { c with usmStatsWrongDigests := c.usmStatsWrongDigests + 1 }
      (c2, c2.usmStatsWrongDigests, usmStatsWrongDigestsObject)
  | .decryptionFailed =>
      let c2 := { c with usmStatsDecryptionErrors := c.usmStatsDecryptionErrors + 1 }
      (c2, c2.usmStatsDecryptionErrors, usmStatsDecryptionErrorsObject)
  | .unavailableContext => (c, 1, snmpUnavailableContextsObject)
  | .unknownContext => (c, 1, snmpUnknownContextsObject)
  | _ => (c, 1, [])

/-- `snmpFormatReportPdu` (lines 702-904): initialize the response,
populate the SNMPv3 message header from the request and the agent's
engine identifiers (lines 714-746); for the `notInTimeWindow` cause only,
set the response flags to the request's flags masked with
authFlag|privFlag and echo the request's user name and parameter lengths
(lines 751-768); select and update the failure-cause counter, encode its
value, append it as the sole variable binding of the Report-PDU (an
append failure propagates), and write the PDU header. -/
def snmpFormatReportPdu (env : SnmpEnv σ) (ctx : SnmpAgentContext σ)
    (counters : UsmCounters) (errorIndication : ErrorT) :
    Except ErrorT (SnmpAgentContext σ × UsmCounters) :=
  let req := ctx.request
  let resp0 : SnmpMessage :=
    { version := req.version
      msgId := req.msgId
      msgMaxSize := SNMP_MAX_MSG_SIZE
      msgFlags := 0
      msgSecurityModel := SNMP_SECURITY_MODEL_USM
      msgAuthEngineId := ctx.contextEngine
      msgAuthEngineIdLen := ctx.contextEngineLen
      msgAuthEngineBoots := ctx.engineBoots
      msgAuthEngineTime := ctx.engineTime
      contextEngineId := ctx.contextEngine
      contextEngineIdLen := ctx.contextEngineLen
      contextName := ctx.contextName
      contextNameLen := ctx.contextNameLen
      pduType := .report
      requestId := req.requestId }
  let resp1 :=
    if errorIndication = .notInTimeWindow then
      { resp0 with msgFlags := snmpMaskAuthPriv req.msgFlags
                   msgUserName := req.msgUserName
                   msgUserNameLen := req.msgUserNameLen
                   msgAuthParameters := Option.none
                   msgAuthParametersLen := req.msgAuthParametersLen
                   msgPrivParameters := ctx.privParameters
                   msgPrivParametersLen := req.msgPrivParametersLen }
    else resp0
  match snmpReportCounterSelect counters errorIndication with
  | (counters2, counterVal, oid) =>
    let bind : SnmpVarBind :=
      { oid := oid
        objClass := ASN1_CLASS_APPLICATION
        objType := MIB_TYPE_COUNTER32
        value := snmpEncodeUnsignedInt32 counterVal }
    match snmpWriteVarBinding env 0 [] bind with
    | .error e => .error e
    | .ok bnds =>
        .ok ({ ctx with response :=
                 snmpWritePduHeader { resp1 with varBindList := bnds } }, counters2)

/-! ## Shared lemmas -/

/-- Characterization of the Get/GetNext handler on an aborted
variable-binding loop: the translated status pair is stored and the
response bindings echo the request, except for tooBig under v2c/v3. -/
theorem snmpProcessGetRequestPdu_abort (env : SnmpEnv σ) (ctx : SnmpAgentContext σ)
    (e : ErrorT) (i : Nat) (bnds : List SnmpVarBind) (st ix : Nat)
    (hm : ctx.userMode = .readOnly ∨ ctx.userMode = .readWrite)
    (hloop : snmpGetLoop env ctx.store ctx.request.version ctx.request.pduType
        ctx.request.varBindList 1 [] = (Option.some (e, i), bnds))
    (htr : snmpTranslateStatusCode ctx.request.version e i = .ok (st, ix)) :
    snmpProcessGetRequestPdu env ctx = .ok { ctx with response :=
      { snmpInitResponse ctx.request with
          errorStatus := st
          errorIndex := ix
          varBindList :=
            if ctx.request.version ≠ .v1 ∧ st = SNMP_ERROR_TOO_BIG then []
            else ctx.request.varBindList } } := by
  have hm' : (ctx.userMode = .readOnly ∨ ctx.userMode = .readWrite) = True := by
    simp [hm]
  simp only [snmpProcessGetRequestPdu, hm', if_true]
  rw [hloop]
  have hver : (snmpInitResponse ctx.request).version = ctx.request.version := rfl
  rw [hver]
  simp only [htr]
  by_cases hcond : ctx.request.version ≠ .v1 ∧ st = SNMP_ERROR_TOO_BIG
  · rw [if_pos hcond, if_pos hcond]
  · rw [if_neg hcond, if_neg hcond]

/-- Characterization of the Get/GetNext handler on a successful
variable-binding loop: the accumulated bindings are kept and the error
fields stay at their initial (noError, 0) values. -/
theorem snmpProcessGetRequestPdu_success (env : SnmpEnv σ) (ctx : SnmpAgentContext σ)
    (bnds : List SnmpVarBind)
    (hm : ctx.userMode = .readOnly ∨ ctx.userMode = .readWrite)
    (hloop : snmpGetLoop env ctx.store ctx.request.version ctx.request.pduType
        ctx.request.varBindList 1 [] = (Option.none, bnds)) :
    snmpProcessGetRequestPdu env ctx = .ok { ctx with response :=
      { snmpInitResponse ctx.request with varBindList := bnds } } := by
  have hm' : (ctx.userMode = .readOnly ∨ ctx.userMode = .readWrite) = True := by
    simp [hm]
  simp only [snmpProcessGetRequestPdu, hm', if_true]
  rw [hloop]

/-! ## Claim C8 -/

/-- C8: in `snmpProcessGetRequestPdu`, on any abort of the
variable-binding loop, after the Status Translator assigns
`(error-status, error-index)` the response variable-binding list is
re-formatted to exactly echo the request's variable-binding list — except
when the version is not v1 and the assigned error-status is tooBig, in
which case the response is emitted with an empty variable-binding list. -/
theorem getRequest_abort_echo_or_empty (env : SnmpEnv σ) (ctx : SnmpAgentContext σ)
    (e : ErrorT) (i : Nat) (bnds : List SnmpVarBind) (st ix : Nat)
    (hm : ctx.userMode = .readOnly ∨ ctx.userMode = .readWrite)
    (hloop : snmpGetLoop env ctx.store ctx.request.version ctx.request.pduType
        ctx.request.varBindList 1 [] = (Option.some (e, i), bnds))
    (htr : snmpTranslateStatusCode ctx.request.version e i = .ok (st, ix)) :
    ∃ ctx2, snmpProcessGetRequestPdu env ctx = .ok ctx2 ∧
      ctx2.response.errorStatus = st ∧ ctx2.response.errorIndex = ix ∧
      ctx2.response.varBindList =
        (if ctx.request.version ≠ .v1 ∧ st = SNMP_ERROR_TOO_BIG then []
         else ctx.request.varBindList) :=
  ⟨_, snmpProcessGetRequestPdu_abort env ctx e i bnds st ix hm hloop htr, rfl, rfl, rfl⟩

/-- Concrete environment exercising the C8 abort paths: the response
buffer holds no binding at all, so the first append overflows. -/
def envC8 : SnmpEnv Nat :=
  { oidCheck := fun _ => true
    getObjectValue := fun _ _ => .ok (4, 2, [7])
    getNextObject := fun _ _ => .error .objectNotFound
    checkSet := fun _ _ => .ok ()
    commitSet := fun s _ => .ok s
    parsePduHeader := fun _ => .ok ()
    capacity := 0 }

/-- Concrete v2c GetRequest context for the C8 witness. -/
def ctxC8 : SnmpAgentContext Nat :=
  { request := { version := .v2c, pduType := .getRequest, varBindList := [{ oid := [5] }] }
    userMode := .readOnly
    store := 0 }

/-- Witness for C8 at a concrete overflow abort: the translated status is
tooBig and the v2c response carries the empty binding list. -/
theorem getRequest_abort_echo_or_empty_witness :
    ∃ ctx2, snmpProcessGetRequestPdu envC8 ctxC8 = .ok ctx2 ∧
      ctx2.response.errorStatus = SNMP_ERROR_TOO_BIG ∧
      ctx2.response.errorIndex = 1 ∧
      ctx2.response.varBindList =
        (if ctxC8.request.version ≠ .v1 ∧ SNMP_ERROR_TOO_BIG = SNMP_ERROR_TOO_BIG then []
         else ctxC8.request.varBindList) :=
  getRequest_abort_echo_or_empty envC8 ctxC8 .bufferOverflow 1 [] SNMP_ERROR_TOO_BIG 1
    (Or.inl rfl) rfl rfl

/-! ## Claim C5 -/

/-- C5: in `snmpProcessGetRequestPdu` under a version other than v1, a
per-variable retrieval failure of `accessDenied` or `objectNotFound` is
converted to a binding carrying the noSuchObject exception and the loop
continues with the next variable, an `instanceNotFound` failure is
converted to a binding carrying the noSuchInstance exception and the loop
continues, any other retrieval failure aborts the whole PDU at that index;
under v1 every retrieval failure aborts; and when the loop succeeds the
response keeps error-status noError. -/
theorem getRequest_exception_substitution :
    (∀ (env : SnmpEnv σ) (store : σ) (ver : SnmpVersion) (v : SnmpVarBind)
       (rest : List SnmpVarBind) (idx : Nat) (resp : List SnmpVarBind) (e : ErrorT),
       ver ≠ .v1 → env.oidCheck v.oid = true → resp.length < env.capacity →
       env.getObjectValue store v.oid = .error e →
       (e = .accessDenied ∨ e = .objectNotFound) →
       snmpGetLoop env store ver .getRequest (v :: rest) idx resp =
         snmpGetLoop env store ver .getRequest rest (idx + 1) (resp ++ [noSuchObjectBind v])) ∧
    (∀ (env : SnmpEnv σ) (store : σ) (ver : SnmpVersion) (v : SnmpVarBind)
       (rest : List SnmpVarBind) (idx : Nat) (resp : List SnmpVarBind),
       ver ≠ .v1 → env.oidCheck v.oid = true → resp.length < env.capacity →
       env.getObjectValue store v.oid = .error .instanceNotFound →
       snmpGetLoop env store ver .getRequest (v :: rest) idx resp =
         snmpGetLoop env store ver .getRequest rest (idx + 1) (resp ++ [noSuchInstanceBind v])) ∧
    (∀ (env : SnmpEnv σ) (store : σ) (ver : SnmpVersion) (v : SnmpVarBind)
       (rest : List SnmpVarBind) (idx : Nat) (resp : List SnmpVarBind) (e : ErrorT),
       ver ≠ .v1 → env.oidCheck v.oid = true →
       env.getObjectValue store v.oid = .error e →
       e ≠ .accessDenied → e ≠ .objectNotFound → e ≠ .instanceNotFound →
       snmpGetLoop env store ver .getRequest (v :: rest) idx resp =
         (Option.some (e, idx), resp)) ∧
    (∀ (env : SnmpEnv σ) (store : σ) (v : SnmpVarBind)
       (rest : List SnmpVarBind) (idx : Nat) (resp : List SnmpVarBind) (e : ErrorT),
       env.oidCheck v.oid = true →
       env.getObjectValue store v.oid = .error e →
       snmpGetLoop env store .v1 .getRequest (v :: rest) idx resp =
         (Option.some (e, idx), resp)) ∧
    (∀ (env : SnmpEnv σ) (ctx : SnmpAgentContext σ) (bnds : List SnmpVarBind),
       (ctx.userMode = .readOnly ∨ ctx.userMode = .readWrite) →
       snmpGetLoop env ctx.store ctx.request.version ctx.request.pduType
         ctx.request.varBindList 1 [] = (Option.none, bnds) →
       ∃ ctx2, snmpProcessGetRequestPdu env ctx = .ok ctx2 ∧
         ctx2.response.errorStatus = SNMP_ERROR_NONE ∧
         ctx2.response.errorIndex = 0 ∧
         ctx2.response.varBindList = bnds) := by
  refine ⟨?_, ?_, ?_, ?_, ?_⟩
  · intro env store ver v rest idx resp e hv hoid hfit hget he
    simp [snmpGetLoop, snmpGetStep, snmpClassifyGetFailure, snmpWriteVarBinding,
      hoid, hget, hv, hfit, he]
  · intro env store ver v rest idx resp hv hoid hfit hget
    simp [snmpGetLoop, snmpGetStep, snmpClassifyGetFailure, snmpWriteVarBinding,
      hoid, hget, hv, hfit]
  · intro env store ver v rest idx resp e hv hoid hget h1 h2 h3
    simp [snmpGetLoop, snmpGetStep, snmpClassifyGetFailure, hoid, hget, hv, h1, h2, h3]
  · intro env store v rest idx resp e hoid hget
    simp [snmpGetLoop, snmpGetStep, snmpClassifyGetFailure, hoid, hget]
  · intro env ctx bnds hmode hloop
    exact ⟨_, snmpProcessGetRequestPdu_success env ctx bnds hmode hloop, rfl, rfl, rfl⟩

/-- Concrete environment for the C5 witness: object [1] is access-denied,
object [2] has no instance, object [3] fails with an unclassified code,
everything else yields a value. -/
def envC5 : SnmpEnv Nat :=
  { oidCheck := fun _ => true
    getObjectValue := fun _ o =>
      if o = [1] then .error .accessDenied
      else if o = [2] then .error .instanceNotFound
      else if o = [3] then .error (.other 3)
      else .ok (4, 2, [7])
    getNextObject := fun _ _ => .error .objectNotFound
    checkSet := fun _ _ => .ok ()
    commitSet := fun s _ => .ok s
    parsePduHeader := fun _ => .ok ()
    capacity := 10 }

/-- Concrete v2c GetRequest context for the C5 witness: its single object
resolves to a real value. -/
def ctxC5 : SnmpAgentContext Nat :=
  { request := { version := .v2c, pduType := .getRequest, varBindList := [{ oid := [4] }] }
    userMode := .readOnly
    store := 0 }

/-- Witness for C5: each classification branch applied at a concrete
input of `envC5`. -/
theorem getRequest_exception_substitution_witness :
    (snmpGetLoop envC5 0 .v2c .getRequest [{ oid := [1] }] 1 [] =
      snmpGetLoop envC5 0 .v2c .getRequest [] 2 [noSuchObjectBind { oid := [1] }]) ∧
    (snmpGetLoop envC5 0 .v2c .getRequest [{ oid := [2] }] 1 [] =
      snmpGetLoop envC5 0 .v2c .getRequest [] 2 [noSuchInstanceBind { oid := [2] }]) ∧
    (snmpGetLoop envC5 0 .v2c .getRequest [{ oid := [3] }] 1 [] =
      (Option.some (ErrorT.other 3, 1), [])) ∧
    (snmpGetLoop envC5 0 .v1 .getRequest [{ oid := [1] }] 1 [] =
      (Option.some (ErrorT.accessDenied, 1), [])) ∧
    (∃ ctx2, snmpProcessGetRequestPdu envC5 ctxC5 = .ok ctx2 ∧
      ctx2.response.errorStatus = SNMP_ERROR_NONE ∧
      ctx2.response.errorIndex = 0 ∧
      ctx2.response.varBindList =
        [{ oid := [4], objClass := 4, objType := 2, value := [7] }]) := by
  refine ⟨?_, ?_, ?_, ?_, ?_⟩
  · exact getRequest_exception_substitution.1 envC5 0 .v2c { oid := [1] } [] 1 [] .accessDenied
      (by decide) rfl (by decide) rfl (Or.inl rfl)
  · exact getRequest_exception_substitution.2.1 envC5 0 .v2c { oid := [2] } [] 1 []
      (by decide) rfl (by decide) rfl
  · exact getRequest_exception_substitution.2.2.1 envC5 0 .v2c { oid := [3] } [] 1 [] (.other 3)
      (by decide) rfl rfl (by decide) (by decide) (by decide)
  · exact getRequest_exception_substitution.2.2.2.1 envC5 0 { oid := [1] } [] 1 [] .accessDenied
      rfl rfl
  · exact getRequest_exception_substitution.2.2.2.2 envC5 ctxC5
      [{ oid := [4], objClass := 4, objType := 2, value := [7] }] (Or.inl rfl) (by decide)

/-! ## Claim C3 -/

/-- Concrete environment for the C3 theorems: every object resolves, but
the response buffer holds no binding, so appends overflow. -/
def envC3 : SnmpEnv Nat :=
  { oidCheck := fun _ => true
    getObjectValue := fun _ _ => .ok (4, 2, [7])
    getNextObject := fun _ _ => .error .objectNotFound
    checkSet := fun _ _ => .ok ()
    commitSet := fun s _ => .ok s
    parsePduHeader := fun _ => .ok ()
    capacity := 0 }

/-- Concrete GetRequest presented with a write-only access mode. -/
def ctxC3a : SnmpAgentContext Nat :=
  { request := { version := .v2c, pduType := .getRequest, varBindList := [{ oid := [5] }] }
    userMode := .writeOnly
    store := 0 }

/-- Concrete read-only GetRequest whose processing aborts with a buffer
overflow (a well-formed request failing only semantically). -/
def ctxC3b : SnmpAgentContext Nat :=
  { request := { version := .v2c, pduType := .getRequest, varBindList := [{ oid := [5] }] }
    userMode := .readOnly
    store := 0 }

/-- Counterexample to C3: a well-formed GetRequest presented with a
write-only access mode makes `snmpProcessPdu` return the bare
`accessDenied` error code to its caller instead of producing a response
message. -/
theorem process_pdu_access_denied_bare_error :
    snmpProcessPdu envC3 ctxC3a = .error .accessDenied := rfl

/-- C3 (amended): a PDU-level authorization failure makes `snmpProcessPdu`
return the bare `accessDenied` error code, while a well-formed request
whose variable-binding loop fails semantically (with a status the
translator recognizes) still yields a fully-populated response message
with its PDU header written. -/
theorem process_pdu_error_vs_response :
    (∀ (env : SnmpEnv σ) (ctx : SnmpAgentContext σ),
       env.parsePduHeader ctx.request = .ok () →
       ctx.request.pduType = .getRequest →
       ¬(ctx.userMode = .readOnly ∨ ctx.userMode = .readWrite) →
       snmpProcessPdu env ctx = .error .accessDenied) ∧
    (∀ (env : SnmpEnv σ) (ctx : SnmpAgentContext σ) (e : ErrorT) (i : Nat)
       (bnds : List SnmpVarBind) (st ix : Nat),
       env.parsePduHeader ctx.request = .ok () →
       ctx.request.pduType = .getRequest →
       (ctx.userMode = .readOnly ∨ ctx.userMode = .readWrite) →
       snmpGetLoop env ctx.store ctx.request.version ctx.request.pduType
         ctx.request.varBindList 1 [] = (Option.some (e, i), bnds) →
       snmpTranslateStatusCode ctx.request.version e i = .ok (st, ix) →
       ∃ ctx2, snmpProcessPdu env ctx = .ok ctx2 ∧
         ctx2.response.pduHeaderWritten = true ∧
         ctx2.response.pduType = .getResponse ∧
         ctx2.response.requestId = ctx.request.requestId ∧
         ctx2.response.errorStatus = st ∧
         ctx2.response.errorIndex = ix) := by
  constructor
  · intro env ctx hparse hpdu hm
    simp only [snmpProcessPdu]
    rw [hparse]
    simp only [hpdu, snmpProcessGetRequestPdu]
    have hm2 : (ctx.userMode = SnmpAccess.readOnly ∨ ctx.userMode = SnmpAccess.readWrite) = False := by
      simp [hm]
    simp only [hm2, if_false]
  · intro env ctx e i bnds st ix hparse hpdu hm hloop htr
    have h0 := snmpProcessGetRequestPdu_abort env { ctx with response := {} } e i bnds st ix
      hm hloop htr
    simp only [snmpProcessPdu]
    rw [hparse]
    simp only [hpdu]
    rw [h0]
    exact ⟨_, rfl, rfl, rfl, rfl, rfl, rfl⟩

/-- Witness for the amended C3 at concrete inputs: the write-only
GetRequest propagates `accessDenied`, the overflowing read-only GetRequest
still yields a response with header, tooBig status and error-index 1. -/
theorem process_pdu_error_vs_response_witness :
    snmpProcessPdu envC3 ctxC3a = .error .accessDenied ∧
    (∃ ctx2, snmpProcessPdu envC3 ctxC3b = .ok ctx2 ∧
       ctx2.response.pduHeaderWritten = true ∧
       ctx2.response.pduType = .getResponse ∧
       ctx2.response.requestId = ctxC3b.request.requestId ∧
       ctx2.response.errorStatus = SNMP_ERROR_TOO_BIG ∧
       ctx2.response.errorIndex = 1) := by
  constructor
  · exact process_pdu_error_vs_response.1 envC3 ctxC3a rfl rfl (by decide)
  · exact process_pdu_error_vs_response.2 envC3 ctxC3b .bufferOverflow 1 []
      SNMP_ERROR_TOO_BIG 1 rfl rfl (Or.inl rfl) rfl rfl

/-! ## Claim C1 -/

/-- Concrete store/environment for the C1 counterexample: the store is the
list of committed object identifiers; every check passes, and the commit
of object [1,3,6,2] fails while the other commits append to the store. -/
def envC1 : SnmpEnv (List (List Nat)) :=
  { oidCheck := fun _ => true
    getObjectValue := fun _ _ => .error (.other 99)
    getNextObject := fun _ _ => .error (.other 99)
    checkSet := fun _ _ => .ok ()
    commitSet := fun s v => if v.oid = [1, 3, 6, 2] then .error .accessDenied
                            else .ok (s ++ [v.oid])
    parsePduHeader := fun _ => .ok ()
    capacity := 10 }

/-- Concrete SetRequest with three bindings over an empty store. -/
def ctxC1 : SnmpAgentContext (List (List Nat)) :=
  { request := { version := .v2c, pduType := .setRequest,
                 varBindList := [{ oid := [1, 3, 6, 1] }, { oid := [1, 3, 6, 2] },
                                 { oid := [1, 3, 6, 3] }] }
    userMode := .readWrite
    store := [] }

/-- Counterexample to C1: when the store's commit operation fails at the
second binding after phase 1 validated all three, `snmpProcessSetRequestPdu`
returns a response (error-index 2) with the first binding already
committed to the store — the store is neither unchanged nor fully
committed, refuting the all-or-none disjunction. -/
theorem set_atomicity_counterexample :
    (Except.map (fun c => (c.store, c.response.errorIndex))
        (snmpProcessSetRequestPdu envC1 ctxC1) = .ok ([[1, 3, 6, 1]], 2)) ∧
    ([[1, 3, 6, 1]] : List (List Nat)) ≠ ctxC1.store ∧
    (snmpSetCommitLoop envC1 ctxC1.store ctxC1.request.varBindList 1).1 =
      Option.some (.accessDenied, 2) :=
  ⟨rfl, by decide, rfl⟩

/-- C1 (amended): if any binding fails phase-1 validation, no commit has
occurred — the store is returned unchanged — and the response carries the
error-index of the failing binding while echoing the request's bindings;
atomicity is guaranteed with respect to validation failures only (a
phase-2 commit failure can leave a prefix of the bindings committed, as
the counterexample shows). -/
theorem set_phase1_failure_no_commit (env : SnmpEnv σ) (ctx : SnmpAgentContext σ)
    (e : ErrorT) (k : Nat) (st ix : Nat)
    (hm : ctx.userMode = .writeOnly ∨ ctx.userMode = .readWrite)
    (hval : snmpSetValidateLoop env ctx.store ctx.request.varBindList 1 =
      Option.some (e, k))
    (htr : snmpTranslateStatusCode ctx.request.version e k = .ok (st, ix)) :
    ∃ ctx2, snmpProcessSetRequestPdu env ctx = .ok ctx2 ∧
      ctx2.store = ctx.store ∧
      ctx2.response.errorStatus = st ∧
      ctx2.response.errorIndex = ix ∧
      ctx2.response.varBindList = ctx.request.varBindList := by
  have hm' : (ctx.userMode = .writeOnly ∨ ctx.userMode = .readWrite) = True := by
    simp [hm]
  simp only [snmpProcessSetRequestPdu, hm', if_true]
  simp only [hval]
  have hver : (snmpInitResponse ctx.request).version = ctx.request.version := rfl
  rw [hver]
  simp only [htr]
  exact ⟨_, rfl, rfl, rfl, rfl, rfl⟩

/-- Concrete environment for the C1 witness: validation rejects object [2]
with `accessDenied` and accepts everything else. -/
def envC1w : SnmpEnv (List (List Nat)) :=
  { oidCheck := fun _ => true
    getObjectValue := fun _ _ => .error (.other 99)
    getNextObject := fun _ _ => .error (.other 99)
    checkSet := fun _ v => if v.oid = [2] then .error .accessDenied else .ok ()
    commitSet := fun s v => .ok (s ++ [v.oid])
    parsePduHeader := fun _ => .ok ()
    capacity := 10 }

/-- Concrete SetRequest for the C1 witness: binding 2 fails validation. -/
def ctxC1w : SnmpAgentContext (List (List Nat)) :=
  { request := { version := .v2c, pduType := .setRequest,
                 varBindList := [{ oid := [1] }, { oid := [2] }, { oid := [3] }] }
    userMode := .readWrite
    store := [] }

/-- Witness for the amended C1: a SetRequest with three bindings whose
second binding fails validation leaves the store unchanged and reports
error-index 2 while echoing the request's bindings. -/
theorem set_phase1_failure_no_commit_witness :
    ∃ ctx2, snmpProcessSetRequestPdu envC1w ctxC1w = .ok ctx2 ∧
      ctx2.store = ctxC1w.store ∧
      ctx2.response.errorStatus = SNMP_ERROR_NO_ACCESS ∧
      ctx2.response.errorIndex = 2 ∧
      ctx2.response.varBindList = ctxC1w.request.varBindList :=
  set_phase1_failure_no_commit envC1w ctxC1w .accessDenied 2 SNMP_ERROR_NO_ACCESS 2
    (Or.inr rfl) (by decide) rfl

/-! ## Claim C4 -/

/-- Concrete environment for the C4 counterexample: every object
identifier fails syntactic validation, checks pass, commits append the
object identifier to the store. -/
def envC4 : SnmpEnv (List (List Nat)) :=
  { oidCheck := fun _ => false
    getObjectValue := fun _ _ => .ok (4, 2, [7])
    getNextObject := fun _ _ => .error .objectNotFound
    checkSet := fun _ _ => .ok ()
    commitSet := fun s v => .ok (s ++ [v.oid])
    parsePduHeader := fun _ => .ok ()
    capacity := 10 }

/-- Concrete SetRequest carrying a single binding whose object identifier
is syntactically invalid under `envC4`. -/
def ctxC4 : SnmpAgentContext (List (List Nat)) :=
  { request := { version := .v2c, pduType := .setRequest, varBindList := [{ oid := [9] }] }
    userMode := .readWrite
    store := [] }

/-- Counterexample to C4: the Set handler passes a binding whose object
identifier fails syntactic validation straight to the store — the binding
is checked and committed (the store mutates to hold it) and the request
succeeds without any `invalidOid` abort, unlike the Get and GetBulk
handlers. -/
theorem set_invalid_oid_counterexample :
    (Except.map (fun c => (c.store, c.response.errorStatus))
        (snmpProcessSetRequestPdu envC4 ctxC4) = .ok ([[9]], SNMP_ERROR_NONE)) ∧
    envC4.oidCheck [9] = false :=
  ⟨rfl, rfl⟩

/-- C4 (amended): in the Get/GetNext and GetBulk handlers a binding whose
object identifier fails syntactic validation aborts the whole PDU with
`invalidOid` at that binding's index before the store is consulted; the
Set handler performs no such validation — its validation phase passes any
binding list the store's check operation accepts, regardless of the
object-identifier syntax. -/
theorem oid_validation_get_bulk_not_set :
    (∀ (env : SnmpEnv σ) (store : σ) (ver : SnmpVersion) (pdu : SnmpPduType)
       (v : SnmpVarBind) (rest : List SnmpVarBind) (idx : Nat) (resp : List SnmpVarBind),
       env.oidCheck v.oid = false →
       snmpGetLoop env store ver pdu (v :: rest) idx resp =
         (Option.some (.invalidOid, idx), resp)) ∧
    (∀ (env : SnmpEnv σ) (store : σ) (written : Nat) (v : SnmpVarBind)
       (rest : List SnmpVarBind) (idx : Nat) (acc : List SnmpVarBind) (eomv : Bool),
       env.oidCheck v.oid = false →
       snmpBulkRound env store written (v :: rest) idx acc eomv =
         (Option.some (.invalidOid, idx), acc, eomv)) ∧
    (∀ (env : SnmpEnv σ) (store : σ) (bindings : List SnmpVarBind) (idx : Nat),
       (∀ v ∈ bindings, env.checkSet store v = .ok ()) →
       snmpSetValidateLoop env store bindings idx = Option.none) := by
  refine ⟨?_, ?_, ?_⟩
  · intro env store ver pdu v rest idx resp h
    simp [snmpGetLoop, h]
  · intro env store written v rest idx acc eomv h
    simp [snmpBulkRound, h]
  · intro env store bindings
    induction bindings with
    | nil => intro idx _; rfl
    | cons v rest ih =>
      intro idx hall
      have hv : env.checkSet store v = .ok () := hall v (by simp)
      have hrest : ∀ w ∈ rest, env.checkSet store w = .ok () := by
        intro w hw; exact hall w (by simp [hw])
      simp only [snmpSetValidateLoop, hv]
      exact ih (idx + 1) hrest

/-- Witness for the amended C4 at concrete inputs of `envC4` (where every
object identifier is syntactically invalid): the Get loop and the bulk
pass abort with `invalidOid` at index 1, while the Set validation phase
accepts the same binding. -/
theorem oid_validation_get_bulk_not_set_witness :
    (snmpGetLoop envC4 [] .v2c .getRequest [{ oid := [9] }] 1 [] =
      (Option.some (.invalidOid, 1), [])) ∧
    (snmpBulkRound envC4 [] 0 [{ oid := [9] }] 1 [] true =
      (Option.some (.invalidOid, 1), [], true)) ∧
    (snmpSetValidateLoop envC4 [] [{ oid := [9] }] 1 = Option.none) := by
  refine ⟨?_, ?_, ?_⟩
  · exact oid_validation_get_bulk_not_set.1 envC4 [] .v2c .getRequest { oid := [9] } [] 1 [] rfl
  · exact oid_validation_get_bulk_not_set.2.1 envC4 [] 0 { oid := [9] } [] 1 [] true rfl
  · exact oid_validation_get_bulk_not_set.2.2 envC4 [] [{ oid := [9] }] 1
      (by intro v _; rfl)

/-! ## Claim C2 -/

/-- Concrete environment for the Report-PDU theorems (one binding fits in
the response buffer). -/
def envC2 : SnmpEnv Nat :=
  { oidCheck := fun _ => true
    getObjectValue := fun _ _ => .ok (4, 2, [7])
    getNextObject := fun _ _ => .error .objectNotFound
    checkSet := fun _ _ => .ok ()
    commitSet := fun s _ => .ok s
    parsePduHeader := fun _ => .ok ()
    capacity := 1 }

/-- Concrete context whose request carries the authFlag, privFlag and
reportableFlag (an authenticated-and-private SNMPv3 request). -/
def ctxC2 : SnmpAgentContext Nat :=
  { request := { version := .v3, pduType := .getRequest
                 msgFlags := SNMP_MSG_FLAG_REPORTABLE + SNMP_MSG_FLAG_PRIV + SNMP_MSG_FLAG_AUTH
                 msgUserName := 77, msgUserNameLen := 5
                 msgAuthParametersLen := 12, msgPrivParametersLen := 8 }
    userMode := .readOnly
    store := 0
    privParameters := 55 }

/-- C2 (code bug): for a not-in-time-window failure of an
authenticated-and-private request, `snmpFormatReportPdu` masks the
request's flags with authFlag|privFlag instead of forcing
authenticated-not-private — the response keeps the privFlag set
(flags = 3, not the authNoPriv value 1 its own RFC 3414 comment requires)
— while the user name and the privacy-parameter length are echoed from
the request. -/
theorem report_not_in_time_window_flags_bug :
    ∃ rc, snmpFormatReportPdu envC2 ctxC2 {} .notInTimeWindow = .ok rc ∧
      rc.1.response.msgFlags = SNMP_MSG_FLAG_AUTH + SNMP_MSG_FLAG_PRIV ∧
      rc.1.response.msgFlags ≠ SNMP_MSG_FLAG_AUTH ∧
      rc.1.response.msgUserName = ctxC2.request.msgUserName ∧
      rc.1.response.msgUserNameLen = ctxC2.request.msgUserNameLen ∧
      rc.1.response.msgPrivParametersLen = ctxC2.request.msgPrivParametersLen ∧
      rc.1.response.pduType = .report :=
  ⟨_, rfl, rfl, by decide, rfl, rfl, rfl, rfl⟩

/-! ## Claim C6 -/

/-- Counter state for the C6 counterexample, in which the
snmpUnavailableContexts counter already stands at 5. -/
def cntC6 : UsmCounters := { snmpUnavailableContexts := 5 }

/-- Counterexample to C6: for the `unavailableContext` cause the Report
handler neither increments any counter nor reads one back — the counter
state is returned untouched and the sole variable binding carries the
constant 1 rather than the incremented counter value 6. -/
theorem report_context_counter_counterexample :
    ∃ rc, snmpFormatReportPdu envC2 ctxC2 cntC6 .unavailableContext = .ok rc ∧
      rc.2 = cntC6 ∧
      rc.1.response.varBindList =
        [{ oid := snmpUnavailableContextsObject
           objClass := ASN1_CLASS_APPLICATION
           objType := MIB_TYPE_COUNTER32
           value := snmpEncodeUnsignedInt32 1 }] ∧
      snmpEncodeUnsignedInt32 1 ≠
        snmpEncodeUnsignedInt32 (cntC6.snmpUnavailableContexts + 1) :=
  ⟨_, rfl, rfl, rfl, by decide⟩

/-- Characterization of a successful Report-PDU construction: the counter
switch selects the updated counters, the value and the object identifier,
and the sole response binding encodes that value. -/
theorem snmpFormatReportPdu_ok (env : SnmpEnv σ) (ctx : SnmpAgentContext σ)
    (counters : UsmCounters) (e : ErrorT) (hcap : 0 < env.capacity) :
    ∃ rc, snmpFormatReportPdu env ctx counters e = .ok rc ∧
      rc.2 = (snmpReportCounterSelect counters e).1 ∧
      rc.1.response.varBindList =
        [{ oid := (snmpReportCounterSelect counters e).2.2
           objClass := ASN1_CLASS_APPLICATION
           objType := MIB_TYPE_COUNTER32
           value := snmpEncodeUnsignedInt32 (snmpReportCounterSelect counters e).2.1 }] ∧
      rc.1.response.pduHeaderWritten = true := by
  rcases hsel : snmpReportCounterSelect counters e with ⟨c2, val, oid⟩
  have hw : (0 + ([] : List SnmpVarBind).length < env.capacity) = True := by
    simp [hcap]
  simp only [snmpFormatReportPdu, hsel, snmpWriteVarBinding, hw, if_true]
  exact ⟨_, rfl, rfl, rfl, rfl⟩

/-- C6 (amended): for the six usmStats causes `snmpFormatReportPdu`
increments the corresponding counter, reads its new value back and encodes
it, with the cause's standard object identifier, as the sole variable
binding of the Report-PDU; for the `unavailableContext` and
`unknownContext` causes the documented object identifier is selected but
no counter is incremented or read back — the encoded value is the
constant 1 and the counter state is unchanged. -/
theorem report_counter_mapping (env : SnmpEnv σ) (ctx : SnmpAgentContext σ)
    (counters : UsmCounters) (hcap : 0 < env.capacity) :
    (∃ rc, snmpFormatReportPdu env ctx counters .unsupportedSecurityLevel = .ok rc ∧
       rc.2 = { counters with usmStatsUnsupportedSecLevels :=
                  counters.usmStatsUnsupportedSecLevels + 1 } ∧
       rc.1.response.varBindList =
         [{ oid := usmStatsUnsupportedSecLevelsObject
            objClass := ASN1_CLASS_APPLICATION
            objType := MIB_TYPE_COUNTER32
            value := snmpEncodeUnsignedInt32 (counters.usmStatsUnsupportedSecLevels + 1) }]) ∧
    (∃ rc, snmpFormatReportPdu env ctx counters .notInTimeWindow = .ok rc ∧
       rc.2 = { counters with usmStatsNotInTimeWindows :=
                  counters.usmStatsNotInTimeWindows + 1 } ∧
       rc.1.response.varBindList =
         [{ oid := usmStatsNotInTimeWindowsObject
            objClass := ASN1_CLASS_APPLICATION
            objType := MIB_TYPE_COUNTER32
            value := snmpEncodeUnsignedInt32 (counters.usmStatsNotInTimeWindows + 1) }]) ∧
    (∃ rc, snmpFormatReportPdu env ctx counters .unknownUserName = .ok rc ∧
       rc.2 = { counters with usmStatsUnknownUserNames :=
                  counters.usmStatsUnknownUserNames + 1 } ∧
       rc.1.response.varBindList =
         [{ oid := usmStatsUnknownUserNamesObject
            objClass := ASN1_CLASS_APPLICATION
            objType := MIB_TYPE_COUNTER32
            value := snmpEncodeUnsignedInt32 (counters.usmStatsUnknownUserNames + 1) }]) ∧
    (∃ rc, snmpFormatReportPdu env ctx counters .unknownEngineId = .ok rc ∧
       rc.2 = { counters with usmStatsUnknownEngineIds :=
                  counters.usmStatsUnknownEngineIds + 1 } ∧
       rc.1.response.varBindList =
         [{ oid := usmStatsUnknownEngineIdsObject
            objClass := ASN1_CLASS_APPLICATION
            objType := MIB_TYPE_COUNTER32
            value := snmpEncodeUnsignedInt32 (counters.usmStatsUnknownEngineIds + 1) }]) ∧
    (∃ rc, snmpFormatReportPdu env ctx counters .authenticationFailed = .ok rc ∧
       rc.2 = { counters with usmStatsWrongDigests := counters.usmStatsWrongDigests + 1 } ∧
       rc.1.response.varBindList =
         [{ oid := usmStatsWrongDigestsObject
            objClass := ASN1_CLASS_APPLICATION
            objType := MIB_TYPE_COUNTER32
            value := snmpEncodeUnsignedInt32 (counters.usmStatsWrongDigests + 1) }]) ∧
    (∃ rc, snmpFormatReportPdu env ctx counters .decryptionFailed = .ok rc ∧
       rc.2 = { counters with usmStatsDecryptionErrors :=
                  counters.usmStatsDecryptionErrors + 1 } ∧
       rc.1.response.varBindList =
         [{ oid := usmStatsDecryptionErrorsObject
            objClass := ASN1_CLASS_APPLICATION
            objType := MIB_TYPE_COUNTER32
            value := snmpEncodeUnsignedInt32 (counters.usmStatsDecryptionErrors + 1) }]) ∧
    (∃ rc, snmpFormatReportPdu env ctx counters .unavailableContext = .ok rc ∧
       rc.2 = counters ∧
       rc.1.response.varBindList =
         [{ oid := snmpUnavailableContextsObject
            objClass := ASN1_CLASS_APPLICATION
            objType := MIB_TYPE_COUNTER32
            value := snmpEncodeUnsignedInt32 1 }]) ∧
    (∃ rc, snmpFormatReportPdu env ctx counters .unknownContext = .ok rc ∧
       rc.2 = counters ∧
       rc.1.response.varBindList =
         [{ oid := snmpUnknownContextsObject
            objClass := ASN1_CLASS_APPLICATION
            objType := MIB_TYPE_COUNTER32
            value := snmpEncodeUnsignedInt32 1 }]) := by
  refine ⟨?_, ?_, ?_, ?_, ?_, ?_, ?_, ?_⟩ <;>
    · obtain ⟨rc, h1, h2, h3, _⟩ := snmpFormatReportPdu_ok env ctx counters _ hcap
      exact ⟨rc, h1, by rw [h2]; rfl, by rw [h3]; rfl⟩

/-- Witness for the amended C6 at a concrete counter state: the
notInTimeWindow counter is read back incremented, the unavailableContext
counter state is untouched. -/
theorem report_counter_mapping_witness :
    (∃ rc, snmpFormatReportPdu envC2 ctxC2 cntC6 .notInTimeWindow = .ok rc ∧
       rc.2 = { cntC6 with usmStatsNotInTimeWindows := cntC6.usmStatsNotInTimeWindows + 1 } ∧
       rc.1.response.varBindList =
         [{ oid := usmStatsNotInTimeWindowsObject
            objClass := ASN1_CLASS_APPLICATION
            objType := MIB_TYPE_COUNTER32
            value := snmpEncodeUnsignedInt32 (cntC6.usmStatsNotInTimeWindows + 1) }]) ∧
    (∃ rc, snmpFormatReportPdu envC2 ctxC2 cntC6 .unavailableContext = .ok rc ∧
       rc.2 = cntC6 ∧
       rc.1.response.varBindList =
         [{ oid := snmpUnavailableContextsObject
            objClass := ASN1_CLASS_APPLICATION
            objType := MIB_TYPE_COUNTER32
            value := snmpEncodeUnsignedInt32 1 }]) :=
  ⟨(report_counter_mapping envC2 ctxC2 cntC6 (by decide)).2.1,
   (report_counter_mapping envC2 ctxC2 cntC6 (by decide)).2.2.2.2.2.2.1⟩

/-! ## Shared lemmas about the GetBulk loop -/

/-- One bulk pass produces at most one binding per processed input
binding, and exactly one each when the pass does not abort. -/
theorem snmpBulkRound_length (env : SnmpEnv σ) (store : σ) (written : Nat)
    (current : List SnmpVarBind) :
    ∀ (idx : Nat) (acc : List SnmpVarBind) (eomv : Bool),
      (snmpBulkRound env store written current idx acc eomv).2.1.length ≤
        acc.length + current.length ∧
      ((snmpBulkRound env store written current idx acc eomv).1 = Option.none →
        (snmpBulkRound env store written current idx acc eomv).2.1.length =
          acc.length + current.length) := by
  induction current with
  | nil => intro idx acc eomv; simp [snmpBulkRound]
  | cons v rest ih =>
    intro idx acc eomv
    by_cases hc : env.oidCheck v.oid = false
    · constructor
      · simp [snmpBulkRound, hc]
      · intro h
        simp [snmpBulkRound, hc] at h
    · cases hstep : snmpBulkStep env store v with
      | error e =>
        constructor
        · simp [snmpBulkRound, hc, hstep]
        · intro h
          simp [snmpBulkRound, hc, hstep] at h
      | ok pr =>
        obtain ⟨outVar, found⟩ := pr
        by_cases hw : written + acc.length < env.capacity
        · have hr : snmpBulkRound env store written (v :: rest) idx acc eomv =
              snmpBulkRound env store written rest (idx + 1) (acc ++ [outVar])
                (if found then false else eomv) := by
            simp [snmpBulkRound, hc, hstep, snmpWriteVarBinding, hw]
          rw [hr]
          have h2 := ih (idx + 1) (acc ++ [outVar]) (if found then false else eomv)
          constructor
          · have h3 := h2.1
            simp only [List.length_append, List.length_cons, List.length_nil] at h3 ⊢
            omega
          · intro h
            have h3 := h2.2 h
            simp only [List.length_append, List.length_cons, List.length_nil] at h3 ⊢
            omega
        · constructor
          · simp [snmpBulkRound, hc, hstep, snmpWriteVarBinding, hw]
          · intro h
            simp [snmpBulkRound, hc, hstep, snmpWriteVarBinding, hw] at h

/-- The repetition rounds complete at most `m` rounds and produce at most
`m` bindings per input binding of the first round. -/
theorem snmpBulkRounds_length (env : SnmpEnv σ) (store : σ) (nonRep : Nat) :
    ∀ (m : Nat) (current : List SnmpVarBind) (written : Nat),
      (snmpBulkRounds env store nonRep m current written).2.1.length ≤
        m * current.length ∧
      (snmpBulkRounds env store nonRep m current written).2.2 ≤ m := by
  intro m
  induction m with
  | zero => intro current written; simp [snmpBulkRounds]
  | succ m ih =>
    intro current written
    rcases hr : snmpBulkRound env store written current (nonRep + 1) [] true
      with ⟨ab, produced, eomv⟩
    have hlen : produced.length ≤ current.length := by
      have h0 := (snmpBulkRound_length env store written current (nonRep + 1) [] true).1
      rw [hr] at h0
      simpa using h0
    have hLe : current.length ≤ (m + 1) * current.length :=
      Nat.le_mul_of_pos_left _ (Nat.succ_pos m)
    cases ab with
    | some ei =>
      constructor
      · simp [snmpBulkRounds, hr]
        all_goals omega
      · simp [snmpBulkRounds, hr]
    | none =>
      have heq : produced.length = current.length := by
        have h0 := (snmpBulkRound_length env store written current (nonRep + 1) [] true).2
        rw [hr] at h0
        simpa using h0 rfl
      by_cases hm0 : m = 0
      · subst hm0
        constructor
        · simp [snmpBulkRounds, hr]
          all_goals omega
        · simp [snmpBulkRounds, hr]
      · by_cases he : eomv = true
        · subst he
          constructor
          · simp [snmpBulkRounds, hr, hm0]
            all_goals omega
          · simp [snmpBulkRounds, hr, hm0]
        · have he2 : eomv = false := by
            revert he
            cases eomv <;> simp
          subst he2
          rcases hrec : snmpBulkRounds env store nonRep m produced
            (written + produced.length) with ⟨r2, more, c2⟩
          have ihm := ih produced (written + produced.length)
          rw [hrec] at ihm
          have i1 : more.length ≤ m * produced.length := ihm.1
          have i2 : c2 ≤ m := ihm.2
          have h5 : (m + 1) * current.length = m * current.length + current.length :=
            Nat.succ_mul m current.length
          have h6 : m * produced.length = m * current.length := by rw [heq]
          have hres : snmpBulkRounds env store nonRep (m + 1) current written =
              (r2, produced ++ more, c2 + 1) := by
            simp [snmpBulkRounds, hr, hm0, hrec]
          rw [hres]
          constructor
          · show (produced ++ more).length ≤ (m + 1) * current.length
            simp only [List.length_append]
            omega
          · show c2 + 1 ≤ m + 1
            omega

/-- When the bulk loop does not abort, or aborts with a buffer overflow,
the handler succeeds keeping the accumulated bindings (no status
translation, no echo of the request) and decrements the request's
maxRepetitions field by the number of completed rounds. -/
theorem snmpProcessGetBulkRequestPdu_keep (env : SnmpEnv σ) (ctx : SnmpAgentContext σ)
    (r : Option (ErrorT × Nat)) (resp : List SnmpVarBind) (c : Nat)
    (hv : ctx.request.version ≠ .v1)
    (hm : ctx.userMode = .readOnly ∨ ctx.userMode = .readWrite)
    (hcore : snmpBulkCore env ctx = (r, resp, c))
    (hr : r = Option.none ∨ ∃ i, r = Option.some (.bufferOverflow, i)) :
    snmpProcessGetBulkRequestPdu env ctx = .ok { ctx with
      request := { ctx.request with
        maxRepetitions := ctx.request.maxRepetitions - c }
      response := { snmpInitResponse ctx.request with varBindList := resp } } := by
  have hv' : (ctx.request.version = SnmpVersion.v1) = False := by simp [hv]
  have hm' : (ctx.userMode = .readOnly ∨ ctx.userMode = .readWrite) = True := by
    simp [hm]
  simp only [snmpProcessGetBulkRequestPdu, hv', hm', if_false, if_true]
  rw [hcore]
  rcases hr with hnone | ⟨i, hover⟩
  · subst hnone
    rfl
  · subst hover
    rfl

/-! ## Claim C7 -/

/-- C7: in `snmpProcessGetBulkRequestPdu`, a buffer-overflow failure while
appending a binding is not surfaced as an error — the handler returns
success, the response keeps exactly the bindings that fit, its
error-status and error-index fields stay at their initial noError/0
values, and the response is not re-formatted to echo the request. -/
theorem bulk_overflow_truncates (env : SnmpEnv σ) (ctx : SnmpAgentContext σ)
    (i : Nat) (resp : List SnmpVarBind) (c : Nat)
    (hv : ctx.request.version ≠ .v1)
    (hm : ctx.userMode = .readOnly ∨ ctx.userMode = .readWrite)
    (hcore : snmpBulkCore env ctx = (Option.some (.bufferOverflow, i), resp, c)) :
    ∃ ctx2, snmpProcessGetBulkRequestPdu env ctx = .ok ctx2 ∧
      ctx2.response.errorStatus = SNMP_ERROR_NONE ∧
      ctx2.response.errorIndex = 0 ∧
      ctx2.response.varBindList = resp :=
  ⟨_, snmpProcessGetBulkRequestPdu_keep env ctx _ resp c hv hm hcore
      (Or.inr ⟨i, rfl⟩), rfl, rfl, rfl⟩

/-- Concrete environment for the C7 witness: a two-binding buffer, every
object having a lexicographic successor until the identifier grows to
three sub-identifiers. -/
def envC7 : SnmpEnv Nat :=
  { oidCheck := fun _ => true
    getObjectValue := fun _ _ => .ok (4, 2, [7])
    getNextObject := fun _ o => if o.length < 3 then .ok (o ++ [1])
                                else .error .objectNotFound
    checkSet := fun _ _ => .ok ()
    commitSet := fun s _ => .ok s
    parsePduHeader := fun _ => .ok ()
    capacity := 2 }

/-- Concrete GetBulkRequest for the C7 witness: one non-repeater, one
repeating variable, three requested repetitions — the third binding no
longer fits. -/
def ctxC7 : SnmpAgentContext Nat :=
  { request := { version := .v2c, pduType := .getBulkRequest, nonRepeaters := 1,
                 maxRepetitions := 3,
                 varBindList := [{ oid := [1] }, { oid := [2] }] }
    userMode := .readOnly
    store := 0 }

/-- Witness for C7: the concrete overflow run succeeds with exactly the
two bindings that fit and noError status. -/
theorem bulk_overflow_truncates_witness :
    ∃ ctx2, snmpProcessGetBulkRequestPdu envC7 ctxC7 = .ok ctx2 ∧
      ctx2.response.errorStatus = SNMP_ERROR_NONE ∧
      ctx2.response.errorIndex = 0 ∧
      ctx2.response.varBindList =
        [{ oid := [1, 1], objClass := 4, objType := 2, value := [7] },
         { oid := [2, 1], objClass := 4, objType := 2, value := [7] }] :=
  bulk_overflow_truncates envC7 ctxC7 2
    [{ oid := [1, 1], objClass := 4, objType := 2, value := [7] },
     { oid := [2, 1], objClass := 4, objType := 2, value := [7] }] 1
    (by decide) (Or.inl rfl) (by decide)

/-- For a request with exactly one repeating variable
(`nonRepeaters + 1` bindings in total) the bulk loop accumulates at most
`nonRepeaters + maxRepetitions` bindings. -/
theorem snmpBulkCore_length (env : SnmpEnv σ) (ctx : SnmpAgentContext σ)
    (hlen : ctx.request.varBindList.length = ctx.request.nonRepeaters + 1) :
    (snmpBulkCore env ctx).2.1.length ≤
      ctx.request.nonRepeaters + ctx.request.maxRepetitions := by
  have hpre_len : (ctx.request.varBindList.take ctx.request.nonRepeaters).length =
      ctx.request.nonRepeaters := by
    rw [List.length_take, hlen]
    omega
  have hsuf_len : (ctx.request.varBindList.drop ctx.request.nonRepeaters).length = 1 := by
    rw [List.length_drop, hlen]
    omega
  rcases hpre : snmpBulkRound env ctx.store 0
      (ctx.request.varBindList.take ctx.request.nonRepeaters) 1 [] true
    with ⟨ab, preResp, b⟩
  have hpreb : preResp.length ≤ ctx.request.nonRepeaters := by
    have h0 := (snmpBulkRound_length env ctx.store 0
      (ctx.request.varBindList.take ctx.request.nonRepeaters) 1 [] true).1
    rw [hpre] at h0
    simpa [hpre_len] using h0
  cases ab with
  | some ei =>
    have hres : snmpBulkCore env ctx = (Option.some ei, preResp, 0) := by
      simp [snmpBulkCore, hpre]
    rw [hres]
    show preResp.length ≤ ctx.request.nonRepeaters + ctx.request.maxRepetitions
    omega
  | none =>
    have hsuf : (ctx.request.varBindList.drop ctx.request.nonRepeaters = []) = False := by
      simp only [eq_iff_iff, iff_false]
      intro h
      rw [h] at hsuf_len
      simp at hsuf_len
    by_cases hmr : ctx.request.maxRepetitions = 0
    · have hres : snmpBulkCore env ctx = (Option.none, preResp, 0) := by
        simp [snmpBulkCore, hpre, hsuf, hmr]
      rw [hres]
      show preResp.length ≤ ctx.request.nonRepeaters + ctx.request.maxRepetitions
      omega
    · rcases hrR : snmpBulkRounds env ctx.store ctx.request.nonRepeaters
        ctx.request.maxRepetitions (ctx.request.varBindList.drop ctx.request.nonRepeaters)
        preResp.length with ⟨r2, produced, c⟩
      have hres : snmpBulkCore env ctx = (r2, preResp ++ produced, c) := by
        simp [snmpBulkCore, hpre, hsuf, hmr, hrR]
      rw [hres]
      have h1 : produced.length ≤ ctx.request.maxRepetitions *
          (ctx.request.varBindList.drop ctx.request.nonRepeaters).length := by
        have h0 := (snmpBulkRounds_length env ctx.store ctx.request.nonRepeaters
          ctx.request.maxRepetitions
          (ctx.request.varBindList.drop ctx.request.nonRepeaters) preResp.length).1
        rw [hrR] at h0
        exact h0
      rw [hsuf_len, Nat.mul_one] at h1
      show (preResp ++ produced).length ≤
        ctx.request.nonRepeaters + ctx.request.maxRepetitions
      rw [List.length_append]
      omega

/-! ## Claim C9 -/

/-- Concrete environment for the C9 counterexample: the next-object search
fails hard with `accessDenied`, aborting the PDU. -/
def envC9 : SnmpEnv Nat :=
  { oidCheck := fun _ => true
    getObjectValue := fun _ _ => .ok (4, 2, [7])
    getNextObject := fun _ _ => .error .accessDenied
    checkSet := fun _ _ => .ok ()
    commitSet := fun s _ => .ok s
    parsePduHeader := fun _ => .ok ()
    capacity := 10 }

/-- Concrete GetBulkRequest for the C9 counterexample: one non-repeater,
one repeating variable, zero repetitions requested. -/
def ctxC9 : SnmpAgentContext Nat :=
  { request := { version := .v2c, pduType := .getBulkRequest, nonRepeaters := 1,
                 maxRepetitions := 0,
                 varBindList := [{ oid := [1] }, { oid := [2] }] }
    userMode := .readOnly
    store := 0 }

/-- Counterexample to C9: when the processing of the non-repeating prefix
aborts (here with `accessDenied` while `maxRepetitions = 0`), the emitted
response echoes the request's `nonRepeaters + 1` bindings, exceeding the
claimed bound of `nonRepeaters + maxRepetitions` bindings. -/
theorem bulk_binding_count_counterexample :
    ∃ ctx2, snmpProcessGetBulkRequestPdu envC9 ctxC9 = .ok ctx2 ∧
      ctxC9.request.varBindList.length = ctxC9.request.nonRepeaters + 1 ∧
      ctx2.response.varBindList.length = 2 ∧
      ¬(ctx2.response.varBindList.length ≤
          ctxC9.request.nonRepeaters + ctxC9.request.maxRepetitions) :=
  ⟨_, rfl, rfl, rfl, by decide⟩

/-- C9 (amended): the repetition loop of `snmpProcessGetBulkRequestPdu`
terminates — it completes at most `maxRepetitions` repetition rounds and
stops after one round as soon as every variable of that round resolved to
the endOfMibView exception — and, for a request with `nonRepeaters`
non-repeating variables and one repeating variable whose processing does
not abort (or aborts only with the silently-truncating buffer overflow),
the response contains at most `nonRepeaters + maxRepetitions` bindings; an
abort routed through the Status Translator instead echoes the request's
`nonRepeaters + 1` bindings, as the counterexample shows. -/
theorem bulk_termination_bounds :
    (∀ (env : SnmpEnv σ) (store : σ) (nonRep m : Nat) (current : List SnmpVarBind)
       (written : Nat),
       (snmpBulkRounds env store nonRep m current written).2.2 ≤ m) ∧
    (∀ (env : SnmpEnv σ) (store : σ) (nonRep m : Nat)
       (current produced : List SnmpVarBind) (written : Nat),
       1 ≤ m →
       snmpBulkRound env store written current (nonRep + 1) [] true =
         (Option.none, produced, true) →
       (snmpBulkRounds env store nonRep m current written).2.2 = 1) ∧
    (∀ (env : SnmpEnv σ) (ctx ctx2 : SnmpAgentContext σ),
       ctx.request.varBindList.length = ctx.request.nonRepeaters + 1 →
       ctx.request.version ≠ .v1 →
       (ctx.userMode = .readOnly ∨ ctx.userMode = .readWrite) →
       (∀ e i, (snmpBulkCore env ctx).1 = Option.some (e, i) → e = .bufferOverflow) →
       snmpProcessGetBulkRequestPdu env ctx = .ok ctx2 →
       ctx2.response.varBindList.length ≤
         ctx.request.nonRepeaters + ctx.request.maxRepetitions) := by
  refine ⟨?_, ?_, ?_⟩
  · intro env store nonRep m current written
    exact (snmpBulkRounds_length env store nonRep m current written).2
  · intro env store nonRep m current produced written hm1 hround
    cases m with
    | zero => omega
    | succ k =>
      by_cases hk : k = 0
      · subst hk
        simp [snmpBulkRounds, hround]
      · simp [snmpBulkRounds, hround, hk]
  · intro env ctx ctx2 hlen hv hm hnoabort hok
    have hb := snmpBulkCore_length env ctx hlen
    rcases hcore : snmpBulkCore env ctx with ⟨r, resp, c⟩
    rw [hcore] at hb
    have hb2 : resp.length ≤ ctx.request.nonRepeaters + ctx.request.maxRepetitions := hb
    cases r with
    | none =>
      rw [snmpProcessGetBulkRequestPdu_keep env ctx _ resp c hv hm hcore (Or.inl rfl)] at hok
      injection hok with h2
      subst h2
      exact hb2
    | some ei =>
      obtain ⟨e, i⟩ := ei
      have he : e = .bufferOverflow := by
        apply hnoabort e i
        rw [hcore]
      subst he
      rw [snmpProcessGetBulkRequestPdu_keep env ctx _ resp c hv hm hcore
        (Or.inr ⟨i, rfl⟩)] at hok
      injection hok with h2
      subst h2
      exact hb2

/-- Concrete environment whose next-object search always reports the end
of the MIB view (every bulk round resolves entirely to endOfMibView). -/
def envC10 : SnmpEnv Nat :=
  { oidCheck := fun _ => true
    getObjectValue := fun _ _ => .ok (4, 2, [7])
    getNextObject := fun _ _ => .error .objectNotFound
    checkSet := fun _ _ => .ok ()
    commitSet := fun s _ => .ok s
    parsePduHeader := fun _ => .ok ()
    capacity := 10 }

/-- Witness for the amended C9: the rounds counter is bounded by the
requested repetitions, the all-endOfMibView first round stops the loop
after exactly one round out of three, and the truncated overflow run of
`ctxC7` respects the `nonRepeaters + maxRepetitions` binding bound. -/
theorem bulk_termination_bounds_witness :
    (snmpBulkRounds envC7 0 1 3 [{ oid := [2] }] 1).2.2 ≤ 3 ∧
    (snmpBulkRounds envC10 0 0 3 [{ oid := [9] }] 0).2.2 = 1 ∧
    (∃ ctx2, snmpProcessGetBulkRequestPdu envC7 ctxC7 = .ok ctx2 ∧
       ctx2.response.varBindList.length ≤
         ctxC7.request.nonRepeaters + ctxC7.request.maxRepetitions) := by
  refine ⟨bulk_termination_bounds.1 envC7 0 1 3 [{ oid := [2] }] 1, ?_, ?_⟩
  · exact bulk_termination_bounds.2.1 envC10 0 0 3 [{ oid := [9] }]
      [endOfMibViewBind { oid := [9] }] 0 (by decide) (by decide)
  · obtain ⟨c2, h2⟩ : ∃ c2, snmpProcessGetBulkRequestPdu envC7 ctxC7 = .ok c2 := ⟨_, rfl⟩
    refine ⟨c2, h2, bulk_termination_bounds.2.2 envC7 ctxC7 c2 (by decide) (by decide)
      (Or.inl rfl) ?_ h2⟩
    intro e i h
    rw [show (snmpBulkCore envC7 ctxC7).1 = Option.some (ErrorT.bufferOverflow, 2)
      from by decide] at h
    simp only [Option.some.injEq, Prod.mk.injEq] at h
    exact h.1.symm

/-! ## Claim C10 -/

/-- Concrete GetBulkRequest arriving with `maxRepetitions = 0`. -/
def ctxC10 : SnmpAgentContext Nat :=
  { request := { version := .v2c, pduType := .getBulkRequest, nonRepeaters := 0,
                 maxRepetitions := 0, varBindList := [{ oid := [1] }] }
    userMode := .readOnly
    store := 0 }

/-- Counterexample to C10: a GetBulkRequest arriving with
`maxRepetitions = 0` completes no repetition round, and after the call the
request message still holds exactly the max-repetitions value it arrived
with (the whole request is unchanged). -/
theorem bulk_max_repetitions_unchanged_counterexample :
    ∃ ctx2, snmpProcessGetBulkRequestPdu envC7 ctxC10 = .ok ctx2 ∧
      ctx2.request.maxRepetitions = ctxC10.request.maxRepetitions ∧
      ctx2.request = ctxC10.request :=
  ⟨_, rfl, rfl, rfl⟩

/-- C10 (amended): on every successful run, `snmpProcessGetBulkRequestPdu`
returns the request message with its maxRepetitions field decremented once
per completed repetition round and every other field unchanged; when at
least one round completes the field differs from the arrival value, and
when no round completes (for example, `maxRepetitions = 0`) it is
unchanged, as the counterexample shows. -/
theorem bulk_max_repetitions_decrement (env : SnmpEnv σ) (ctx ctx2 : SnmpAgentContext σ)
    (hv : ctx.request.version ≠ .v1)
    (hm : ctx.userMode = .readOnly ∨ ctx.userMode = .readWrite)
    (hok : snmpProcessGetBulkRequestPdu env ctx = .ok ctx2) :
    ctx2.request = { ctx.request with
      maxRepetitions := ctx.request.maxRepetitions - (snmpBulkCore env ctx).2.2 } := by
  have hv' : (ctx.request.version = SnmpVersion.v1) = False := by simp [hv]
  have hm' : (ctx.userMode = .readOnly ∨ ctx.userMode = .readWrite) = True := by
    simp [hm]
  rcases hcore : snmpBulkCore env ctx with ⟨r, resp, c⟩
  cases r with
  | none =>
    rw [snmpProcessGetBulkRequestPdu_keep env ctx _ resp c hv hm hcore (Or.inl rfl)] at hok
    injection hok with h2
    subst h2
    rfl
  | some ei =>
    obtain ⟨e, i⟩ := ei
    by_cases he : e = .bufferOverflow
    · subst he
      rw [snmpProcessGetBulkRequestPdu_keep env ctx _ resp c hv hm hcore
        (Or.inr ⟨i, rfl⟩)] at hok
      injection hok with h2
      subst h2
      rfl
    · simp only [snmpProcessGetBulkRequestPdu, hv', hm', if_false, if_true, hcore] at hok
      have he' : (e = ErrorT.bufferOverflow) = False := by simp [he]
      simp only [he', if_false] at hok
      cases htr : snmpTranslateStatusCode (snmpInitResponse ctx.request).version e i with
      | error e2 =>
        rw [htr] at hok
        cases hok
      | ok p =>
        obtain ⟨st, ix⟩ := p
        rw [htr] at hok
        injection hok with h2
        subst h2
        rfl

/-- Concrete GetBulkRequest for the C10 witness: two repetitions
requested, the single repeating variable resolving to endOfMibView in the
first round, so exactly one round completes. -/
def ctxC10b : SnmpAgentContext Nat :=
  { request := { version := .v2c, pduType := .getBulkRequest, nonRepeaters := 0,
                 maxRepetitions := 2, varBindList := [{ oid := [9] }] }
    userMode := .readOnly
    store := 0 }

/-- Witness for the amended C10: the concrete run completes one round and
hands back the request with maxRepetitions 2 − 1 and everything else
untouched. -/
theorem bulk_max_repetitions_decrement_witness :
    ∃ ctx2, snmpProcessGetBulkRequestPdu envC10 ctxC10b = .ok ctx2 ∧
      ctx2.request = { ctxC10b.request with
        maxRepetitions := ctxC10b.request.maxRepetitions -
          (snmpBulkCore envC10 ctxC10b).2.2 } ∧
      (snmpBulkCore envC10 ctxC10b).2.2 = 1 := by
  obtain ⟨c2, h2⟩ : ∃ c2, snmpProcessGetBulkRequestPdu envC10 ctxC10b = .ok c2 := ⟨_, rfl⟩
  exact ⟨c2, h2,
    bulk_max_repetitions_decrement envC10 ctxC10b c2 (by decide) (Or.inl rfl) h2, rfl⟩

end SnmpAgent
